import Mathlib

/-!
Verification of the tinysoundfont-pybind binding (`src/main.cpp`) against its
specification. The binding wraps the TinySoundFont engine (`tsf.h`, not part
of the sources here); the engine-side operations are therefore modelled from
the specification, while the binding-side logic (buffer-shape validation,
which wrapped calls throw on failure and which ignore failure) is translated
directly from `src/main.cpp`.

Conventions of the embedding:
* C++ exceptions become `Except String`: a method that can throw is a function
  into `Except String Tsf` (or `Except String` of its result), `.error msg`
  standing for `throw std::runtime_error(msg)`.
* A tsf engine call returning an int status becomes a function into
  `Option Tsf`: `none` stands for a zero (failure) return, in which case the
  engine state is unchanged.
* Floating-point gains/volumes are modelled by `ℚ`; machine ints by `Int`,
  sizes by `Nat`.
-/

set_option autoImplicit false

namespace TinySoundFont

/-- Output modes of the engine, from the `TSFOutputMode` enum. -/
inductive TSFOutputMode where
  | StereoInterleaved
  | StereoUnweaved
  | Mono
deriving DecidableEq, Repr

/-- Modelled from the spec: a Region maps a key range (and velocity range) to
a sample with its envelope parameters; `sustaining` is false for a
non-sustaining/percussive envelope. -/
structure Region where
  lokey : Nat
  hikey : Nat
  lovel : ℚ
  hivel : ℚ
  sustaining : Bool
deriving DecidableEq, Repr

/-- Modelled from the spec: a Preset is named, addressable by (bank, program)
pair and by flat index, and holds an ordered set of regions. -/
structure Preset where
  presetName : String
  bank : Int
  preset : Int
  regions : List Region
deriving DecidableEq, Repr

/-- Modelled from the spec: a Voice is one active sound-generator instance.
`playingPreset = -1` marks a free pool slot (an inactive voice);
`framesPlayed` is the playback cursor, `level` the amplitude-envelope level
(0 is silence), `startOrder` the start-order stamp used by voice stealing,
`playingChannel = -1` marks a voice started in direct (channel-less) mode. -/
structure Voice where
  playingPreset : Int
  playingKey : Nat
  playingChannel : Int
  inRelease : Bool
  sustaining : Bool
  level : Nat
  framesPlayed : Nat
  startOrder : Nat
  velocity : ℚ
deriving DecidableEq, Repr

/-- Modelled from the spec: per-channel routing state. -/
structure Channel where
  presetIndex : Option Nat
  bank : Int
  pan : ℚ
  volume : ℚ
  pitchWheel : Int
  pitchRange : ℚ
  tuning : ℚ
deriving DecidableEq, Repr

/-- Modelled from the spec: the engine state behind a `tsf*` handle — the
immutable preset list of the loaded Bank plus the mutable session state
(output configuration, global gain, voice pool with its capacity bound,
channel table, and a counter stamping voice start order). -/
structure Tsf where
  presets : List Preset
  outputmode : TSFOutputMode
  samplerate : Nat
  globalGain : ℚ
  voices : List Voice
  maxVoices : Nat
  channels : List Channel
  voiceCounter : Nat
deriving DecidableEq, Repr

/-- `outputmode == TSF_MONO ? 1 : 2`, as computed at the top of
`SoundFont::render`. -/
def outputChannels (st : Tsf) : Nat :=
  if st.outputmode = TSFOutputMode.Mono then 1 else 2

/-- A voice occupying a live pool slot. -/
def isActive (v : Voice) : Bool :=
  v.playingPreset ≠ -1

/-- Number of active voices in a pool. -/
def countActive (vs : List Voice) : Nat :=
  (vs.filter isActive).length

/-- Modelled from the spec: one frame of per-voice progression — the playback
cursor advances by one frame and a release-phase envelope decays toward
silence; a voice whose envelope reaches silence is destroyed (its slot is
marked free). Inactive slots are untouched. -/
def stepVoice (v : Voice) : Voice :=
  if isActive v then
    let level1 := if v.inRelease then v.level - 1 else v.level
    if level1 = 0 then
      { v with playingPreset := -1, level := 0, framesPlayed := v.framesPlayed + 1 }
    else
      { v with level := level1, framesPlayed := v.framesPlayed + 1 }
  else v

/-- `stepVoice` iterated `n` times: the per-voice effect of rendering `n`
frames. -/
def stepVoiceN : Nat → Voice → Voice
  | 0, v => v
  | n + 1, v => stepVoiceN n (stepVoice v)

/-- Modelled from the spec: the gain applied to a voice's contribution on
output channel `c` — channel volume and pan for a channel-routed voice
(or the direct-mode defaults), pan split across the two stereo channels. -/
def voiceChannelGain (st : Tsf) (v : Voice) (c : Nat) : ℚ :=
  let chParams :=
    if v.playingChannel < 0 then (((1 : ℚ) / 2), (1 : ℚ))
    else match st.channels.get? v.playingChannel.toNat with
      | some ch => (ch.pan, ch.volume)
      | none => (((1 : ℚ) / 2), (1 : ℚ))
  if outputChannels st = 1 then chParams.2
  else if c = 0 then chParams.2 * (1 - chParams.1)
  else chParams.2 * chParams.1

/-- Modelled from the spec: mix one output frame — each output channel is the
sum of the active voices' contributions (envelope level times note velocity
times the channel's volume/pan gain), scaled by the global gain. -/
def mixFrame (st : Tsf) : List ℚ :=
  (List.range (outputChannels st)).map (fun c =>
    st.voices.foldl
      (fun acc v =>
        if isActive v then
          acc + (v.level : ℚ) * v.velocity * voiceChannelGain st v c * st.globalGain
        else acc)
      0)

/-- Modelled from the spec: advance the whole engine by one frame — mix the
current frame, then advance every voice's envelope and cursor. -/
def renderFrame (st : Tsf) : Tsf × List ℚ :=
  ({ st with voices := st.voices.map stepVoice }, mixFrame st)

/-- Modelled from the spec: `tsf_render_float` (tsf.h is not among the
sources) — advance every active voice by `samples` frames, applying
per-voice envelope progression, and produce the `samples` mixed frames
written to the output buffer. -/
def tsf_render_float : Tsf → Nat → Tsf × List (List ℚ)
  | st, 0 => (st, [])
  | st, n + 1 =>
    let r := renderFrame st
    let rest := tsf_render_float r.1 n
    (rest.1, r.2 :: rest.2)

/-- Element format of a python buffer, as compared by `SoundFont::render`
against the `unsigned char` and `float` format descriptors; every other
format string is `other`. -/
inductive BufFormat where
  | uchar
  | float32
  | other (descr : String)
deriving DecidableEq, Repr

/-- The shape information `SoundFont::render` reads from `py::buffer_info`:
dimensionality, element format, and the first two shape entries. -/
structure BufferInfo where
  ndim : Nat
  format : BufFormat
  shape0 : Nat
  shape1 : Nat
deriving DecidableEq, Repr

/-- `SoundFont::render` from `src/main.cpp`: validate the buffer shape, then
hand the computed sample count to `tsf_render_float`. A 1-D buffer must be
unsigned bytes with length an exact multiple of `4 * output_channels`
(sample count is the quotient); otherwise the element format must be float32,
the dimensionality 2, and the second dimension must equal the output channel
count (sample count is the first dimension). On success the result is the new
engine state and the frames written; on failure the C++ code throws before
any write, so the error result carries no state and no frames. -/
def SoundFont.render (st : Tsf) (info : BufferInfo) : Except String (Tsf × List (List ℚ)) :=
  let output_channels := outputChannels st
  if info.ndim = 1 then
    if info.format ≠ BufFormat.uchar then
      Except.error "Incompatible buffer format, must be unsigned char"
    else if info.shape0 % (4 * output_channels) ≠ 0 then
      Except.error "Buffer length does not divide evenly into sample frames"
    else
      Except.ok (tsf_render_float st (info.shape0 / (4 * output_channels)))
  else if info.format ≠ BufFormat.float32 then
    Except.error "Incompatible buffer format, must be float32"
  else if info.ndim ≠ 2 then
    Except.error "Incompatible buffer dimension, must be 1 dimensional bytearray or 2 dimensional of size (samples, channels)"
  else if info.shape1 ≠ output_channels then
    Except.error (if output_channels = 1
      then "Incompatible buffer length, channel size must be 1 for mono"
      else "Incompatible buffer length, channel size must be 2 for stereo")
  else
    Except.ok (tsf_render_float st info.shape0)

/-- Modelled from the spec: the flat-index lookup behind
`tsf_get_presetindex` — the position of the first preset carrying the given
(bank, program) pair, if any. -/
def presetLookup (bank number : Int) : List Preset → Option Nat
  | [] => none
  | p :: ps =>
    if p.bank = bank ∧ p.preset = number then some 0
    else (presetLookup bank number ps).map (· + 1)

/-- Modelled from the spec: `tsf_get_presetindex` (tsf.h is not among the
sources) — the stable flat index of the preset with the given (bank,
program) pair, or -1 when no preset matches (a sentinel, not an error). -/
def tsf_get_presetindex (st : Tsf) (bank number : Int) : Int :=
  match presetLookup bank number st.presets with
  | some i => (i : Int)
  | none => -1

/-- Modelled from the spec: `tsf_get_presetcount` — the number of presets in
the loaded bank. -/
def tsf_get_presetcount (st : Tsf) : Nat :=
  st.presets.length

/-- Modelled from the spec: `tsf_get_presetname` — the name of the preset at
a flat index, failing (no string produced) when the index is outside
[0, presetCount). -/
def tsf_get_presetname (st : Tsf) (index : Int) : Option String :=
  if index < 0 then none
  else (st.presets.get? index.toNat).map Preset.presetName

/-- Modelled from the spec: `tsf_bank_get_presetname` — the name of the
preset with the given (bank, program) pair, failing when no preset
matches. -/
def tsf_bank_get_presetname (st : Tsf) (bank number : Int) : Option String :=
  (presetLookup bank number st.presets).bind
    (fun i => (st.presets.get? i).map Preset.presetName)

/-- `SoundFont::get_preset_name(int)` from `src/main.cpp`: return the name
delivered by `tsf_get_presetname`; per the spec the operation fails when the
index does not lie in [0, presetCount). -/
def SoundFont.get_preset_name_by_index (st : Tsf) (index : Int) : Except String String :=
  match tsf_get_presetname st index with
  | some s => Except.ok s
  | none => Except.error "preset index out of range"

/-- `SoundFont::get_preset_name(int, int)` from `src/main.cpp`: return the
name delivered by `tsf_bank_get_presetname`; per the spec the operation
fails when no preset matches the (bank, program) pair. -/
def SoundFont.get_preset_name_by_bank (st : Tsf) (bank number : Int) : Except String String :=
  match tsf_bank_get_presetname st bank number with
  | some s => Except.ok s
  | none => Except.error "no preset matches the bank and preset number"

/-- `SoundFont::get_preset_index` from `src/main.cpp`: thin wrapper around
`tsf_get_presetindex`. -/
def SoundFont.get_preset_index (st : Tsf) (bank number : Int) : Int :=
  tsf_get_presetindex st bank number

/-- Mark a voice slot free and silent, as voice stealing and sounds-off do. -/
def voiceOff (v : Voice) : Voice :=
  { v with playingPreset := -1, level := 0 }

/-- Modelled from the spec: among the voices satisfying `p`, the position and
value of the one with the smallest start-order stamp (the oldest). -/
def bestSteal (p : Voice → Bool) : List Voice → Option (Nat × Voice)
  | [] => none
  | v :: vs =>
    match bestSteal p vs with
    | none => if p v then some (0, v) else none
    | some (j, w) =>
      if p v ∧ v.startOrder ≤ w.startOrder then some (0, v) else some (j + 1, w)

/-- Modelled from the spec: the voice-stealing policy — stop voices already in
release phase first, then the oldest by start order. -/
def chooseSteal (vs : List Voice) : Option (Nat × Voice) :=
  match bestSteal (fun v => isActive v && v.inRelease) vs with
  | some iw => some iw
  | none => bestSteal isActive vs

/-- Modelled from the spec: forcibly stop one voice chosen by the stealing
policy; a pool with no active voice is left as is. -/
def stealOne (vs : List Voice) : List Voice :=
  match chooseSteal vs with
  | some (i, w) => vs.set i (voiceOff w)
  | none => vs

/-- Steal `k` voices in sequence. -/
def stealDown : Nat → List Voice → List Voice
  | 0, vs => vs
  | k + 1, vs => stealDown k (stealOne vs)

/-- Modelled from the spec: `tsf_set_max_voices` (tsf.h is not among the
sources) — adjust the pool's capacity bound; shrinking it below the current
active count forcibly steals voices per the stealing policy rather than
erroring. -/
def tsf_set_max_voices (st : Tsf) (n : Int) : Tsf :=
  { st with maxVoices := n.toNat,
            voices := stealDown (countActive st.voices - n.toNat) st.voices }

/-- `SoundFont::set_max_voices` from `src/main.cpp`: plain pass-through, never
throws. -/
def SoundFont.set_max_voices (st : Tsf) (n : Int) : Except String Tsf :=
  Except.ok (tsf_set_max_voices st n)

/-- Modelled from the spec: does a region's key range (and velocity range)
match the played note. -/
def regionMatches (r : Region) (key : Nat) (vel : ℚ) : Bool :=
  decide (r.lokey ≤ key ∧ key ≤ r.hikey ∧ r.lovel ≤ vel ∧ vel ≤ r.hivel)

/-- Modelled from the spec: the fresh voice a note-on binds to one matching
region. -/
def newVoice (presetIdx : Nat) (r : Region) (key : Nat) (vel : ℚ) (channel : Int)
    (order : Nat) : Voice :=
  { playingPreset := (presetIdx : Int), playingKey := key, playingChannel := channel,
    inRelease := false, sustaining := r.sustaining, level := 100,
    framesPlayed := 0, startOrder := order, velocity := vel }

/-- Modelled from the spec: voice allocation honours the pool's capacity
bound — when the pool is full a voice is stolen per policy instead of
reporting an error; a zero capacity admits no voice at all. -/
def allocVoice (maxV : Nat) (vs : List Voice) (v : Voice) : List Voice :=
  if maxV = 0 then vs
  else if countActive vs < maxV then vs ++ [v]
  else stealOne vs ++ [v]

/-- Modelled from the spec: a note-on creates one voice per region of the
preset matching the key and velocity, each allocation respecting the
capacity bound, stamping voices with increasing start order. -/
def startVoices (st : Tsf) (presetIdx : Nat) (key : Nat) (vel : ℚ)
    (channel : Int) : Tsf :=
  match st.presets.get? presetIdx with
  | none => st
  | some p =>
    let matching := p.regions.filter (fun r => regionMatches r key vel)
    let res := matching.foldl
      (fun (acc : List Voice × Nat) r =>
        (allocVoice st.maxVoices acc.1 (newVoice presetIdx r key vel channel acc.2),
         acc.2 + 1))
      (st.voices, st.voiceCounter)
    { st with voices := res.1, voiceCounter := res.2 }

/-- Modelled from the spec: `tsf_note_on` — fails (zero return, no voice
created, state untouched) when the preset index does not resolve; otherwise
starts the matching voices. -/
def tsf_note_on (st : Tsf) (index : Int) (key : Nat) (vel : ℚ) : Option Tsf :=
  if index < 0 ∨ (st.presets.length : Int) ≤ index then none
  else some (startVoices st index.toNat key vel (-1))

/-- Modelled from the spec: `tsf_bank_note_on` — fails when the (bank,
program) pair matches no preset; otherwise starts the matching voices. -/
def tsf_bank_note_on (st : Tsf) (bank number : Int) (key : Nat) (vel : ℚ) : Option Tsf :=
  match presetLookup bank number st.presets with
  | none => none
  | some i => some (startVoices st i key vel (-1))

/-- `SoundFont::note_on(int, int, float)` from `src/main.cpp`: throws
"Error in note_on" when `tsf_note_on` reports failure. -/
def SoundFont.note_on_by_index (st : Tsf) (index : Int) (key : Nat) (vel : ℚ) :
    Except String Tsf :=
  match tsf_note_on st index key vel with
  | none => Except.error "Error in note_on"
  | some st1 => Except.ok st1

/-- `SoundFont::note_on(int, int, int, float)` from `src/main.cpp`: throws
"Error in note_on" when `tsf_bank_note_on` reports failure. -/
def SoundFont.note_on_by_bank (st : Tsf) (bank number : Int) (key : Nat) (vel : ℚ) :
    Except String Tsf :=
  match tsf_bank_note_on st bank number key vel with
  | none => Except.error "Error in note_on"
  | some st1 => Except.ok st1

/-- Modelled from the spec: a note-off sends a voice into release phase (not
immediate silence) unless its region has a non-sustaining envelope, in which
case it stops at once. -/
def releaseVoice (v : Voice) : Voice :=
  if v.sustaining then { v with inRelease := true } else voiceOff v

/-- Modelled from the spec: `tsf_note_off_all` — every active voice goes to
release. -/
def tsf_note_off_all (st : Tsf) : Tsf :=
  { st with voices := st.voices.map (fun v =>
      if isActive v then releaseVoice v else v) }

/-- Modelled from the spec: `tsf_note_off` — the active voices playing the
given preset index and key go to release; arguments matching no voice simply
match nothing. -/
def tsf_note_off (st : Tsf) (index : Int) (key : Nat) : Tsf :=
  { st with voices := st.voices.map (fun v =>
      if isActive v ∧ v.playingPreset = index ∧ v.playingKey = key
      then releaseVoice v else v) }

/-- Modelled from the spec: `tsf_bank_note_off` — resolves the (bank,
program) pair and releases its voices for the key; a zero status reports an
unresolved pair, with no state change. -/
def tsf_bank_note_off (st : Tsf) (bank number : Int) (key : Nat) : Option Tsf :=
  match presetLookup bank number st.presets with
  | none => none
  | some i => some (tsf_note_off st (i : Int) key)

/-- `SoundFont::note_off()` from `src/main.cpp`: plain pass-through, never
throws. -/
def SoundFont.note_off_all (st : Tsf) : Except String Tsf :=
  Except.ok (tsf_note_off_all st)

/-- `SoundFont::note_off(int, int)` from `src/main.cpp`: plain pass-through,
never throws. -/
def SoundFont.note_off_by_index (st : Tsf) (index : Int) (key : Nat) :
    Except String Tsf :=
  Except.ok (tsf_note_off st index key)

/-- `SoundFont::note_off(int, int, int)` from `src/main.cpp`: the status of
`tsf_bank_note_off` is discarded, so an unresolved pair leaves the state as
it was and the call still returns normally. -/
def SoundFont.note_off_by_bank (st : Tsf) (bank number : Int) (key : Nat) :
    Except String Tsf :=
  Except.ok ((tsf_bank_note_off st bank number key).getD st)

/-- Modelled from the spec: a channel index is valid when it lies inside
[0, N) for the configured channel count N. -/
def validChannel (st : Tsf) (channel : Int) : Bool :=
  decide (0 ≤ channel ∧ channel.toNat < st.channels.length)

/-- Update one channel of the table in place. -/
def updateChannel (st : Tsf) (channel : Nat) (f : Channel → Channel) : Tsf :=
  match st.channels.get? channel with
  | some ch => { st with channels := st.channels.set channel (f ch) }
  | none => st

/-- Modelled from the spec: `tsf_channel_set_presetindex` — fails on an
invalid channel or an unresolvable preset index, otherwise assigns the
preset to the channel. -/
def tsf_channel_set_presetindex (st : Tsf) (channel index : Int) : Option Tsf :=
  if validChannel st channel then
    if 0 ≤ index ∧ index.toNat < st.presets.length then
      some (updateChannel st channel.toNat (fun ch => { ch with presetIndex := some index.toNat }))
    else none
  else none

/-- Modelled from the spec: `tsf_channel_set_presetnumber` — fails on an
invalid channel; the drum flag restricts the lookup to the percussion bank
convention (bank 128), and a program number matching no preset fails. -/
def tsf_channel_set_presetnumber (st : Tsf) (channel number : Int) (drum : Bool) :
    Option Tsf :=
  if validChannel st channel then
    match presetLookup (if drum then 128 else 0) number st.presets with
    | some i => some (updateChannel st channel.toNat (fun ch => { ch with presetIndex := some i }))
    | none => none
  else none

/-- Modelled from the spec: `tsf_channel_set_bank` — fails on an invalid
channel, otherwise records the bank for later program selection. -/
def tsf_channel_set_bank (st : Tsf) (channel bank : Int) : Option Tsf :=
  if validChannel st channel then
    some (updateChannel st channel.toNat (fun ch => { ch with bank := bank }))
  else none

/-- Modelled from the spec: `tsf_channel_set_bank_preset` — fails on an
invalid channel or an unmatched (bank, program) pair, otherwise assigns the
resolved preset. -/
def tsf_channel_set_bank_preset (st : Tsf) (channel bank number : Int) : Option Tsf :=
  if validChannel st channel then
    match presetLookup bank number st.presets with
    | some i => some (updateChannel st channel.toNat
        (fun ch => { ch with bank := bank, presetIndex := some i }))
    | none => none
  else none

/-- Modelled from the spec: `tsf_channel_set_pan` — fails on an invalid
channel, otherwise updates the channel's pan, consulted live by rendering. -/
def tsf_channel_set_pan (st : Tsf) (channel : Int) (pan : ℚ) : Option Tsf :=
  if validChannel st channel then
    some (updateChannel st channel.toNat (fun ch => { ch with pan := pan }))
  else none

/-- Modelled from the spec: `tsf_channel_set_volume` — fails on an invalid
channel, otherwise updates the channel's volume. -/
def tsf_channel_set_volume (st : Tsf) (channel : Int) (volume : ℚ) : Option Tsf :=
  if validChannel st channel then
    some (updateChannel st channel.toNat (fun ch => { ch with volume := volume }))
  else none

/-- Modelled from the spec: `tsf_channel_set_pitchwheel` — fails on an
invalid channel, otherwise updates the pitch-wheel position. -/
def tsf_channel_set_pitchwheel (st : Tsf) (channel pitchWheel : Int) : Option Tsf :=
  if validChannel st channel then
    some (updateChannel st channel.toNat (fun ch => { ch with pitchWheel := pitchWheel }))
  else none

/-- Modelled from the spec: `tsf_channel_set_pitchrange` — fails on an
invalid channel, otherwise updates the pitch-bend range in semitones. -/
def tsf_channel_set_pitchrange (st : Tsf) (channel : Int) (p : ℚ) : Option Tsf :=
  if validChannel st channel then
    some (updateChannel st channel.toNat (fun ch => { ch with pitchRange := p }))
  else none

/-- Modelled from the spec: `tsf_channel_set_tuning` — fails on an invalid
channel, otherwise updates the fine tuning in semitones. -/
def tsf_channel_set_tuning (st : Tsf) (channel : Int) (tuning : ℚ) : Option Tsf :=
  if validChannel st channel then
    some (updateChannel st channel.toNat (fun ch => { ch with tuning := tuning }))
  else none

/-- Modelled from the spec: `tsf_channel_note_on` — fails on an invalid
channel or a channel with no assigned preset, otherwise starts voices
through the channel's preset. -/
def tsf_channel_note_on (st : Tsf) (channel : Int) (key : Nat) (vel : ℚ) : Option Tsf :=
  if validChannel st channel then
    match st.channels.get? channel.toNat with
    | some ch =>
      match ch.presetIndex with
      | some i => some (startVoices st i key vel channel)
      | none => none
    | none => none
  else none

/-- Modelled from the spec: `tsf_channel_note_off` — on a valid channel the
matching voices go to release; an invalid channel is a zero status with no
state change. -/
def tsf_channel_note_off (st : Tsf) (channel : Int) (key : Nat) : Option Tsf :=
  if validChannel st channel then
    some { st with voices := st.voices.map (fun v =>
      if isActive v ∧ v.playingChannel = channel ∧ v.playingKey = key
      then releaseVoice v else v) }
  else none

/-- Modelled from the spec: `tsf_channel_note_off_all` — on a valid channel
every voice of the channel goes to release; an invalid channel is a zero
status with no state change. -/
def tsf_channel_note_off_all (st : Tsf) (channel : Int) : Option Tsf :=
  if validChannel st channel then
    some { st with voices := st.voices.map (fun v =>
      if isActive v ∧ v.playingChannel = channel then releaseVoice v else v) }
  else none

/-- Modelled from the spec: `tsf_channel_sounds_off_all` — on a valid channel
every voice of the channel stops immediately, bypassing release; an invalid
channel is a zero status with no state change. -/
def tsf_channel_sounds_off_all (st : Tsf) (channel : Int) : Option Tsf :=
  if validChannel st channel then
    some { st with voices := st.voices.map (fun v =>
      if isActive v ∧ v.playingChannel = channel then voiceOff v else v) }
  else none

/-- `SoundFont::set_channel_preset_index` from `src/main.cpp`: throws on a
zero status. -/
def SoundFont.set_channel_preset_index (st : Tsf) (channel index : Int) :
    Except String Tsf :=
  match tsf_channel_set_presetindex st channel index with
  | none => Except.error "Error in set_channel_preset_index"
  | some st1 => Except.ok st1

/-- `SoundFont::set_channel_preset_number` from `src/main.cpp`: throws on a
zero status. -/
def SoundFont.set_channel_preset_number (st : Tsf) (channel number : Int)
    (drum : Bool) : Except String Tsf :=
  match tsf_channel_set_presetnumber st channel number drum with
  | none => Except.error "Error in set_channel_preset_number"
  | some st1 => Except.ok st1

/-- `SoundFont::set_channel_bank` from `src/main.cpp`: throws on a zero
status. -/
def SoundFont.set_channel_bank (st : Tsf) (channel bank : Int) : Except String Tsf :=
  match tsf_channel_set_bank st channel bank with
  | none => Except.error "Error in set_channel_bank"
  | some st1 => Except.ok st1

/-- `SoundFont::set_channel_bank_preset` from `src/main.cpp`: throws on a
zero status. -/
def SoundFont.set_channel_bank_preset (st : Tsf) (channel bank number : Int) :
    Except String Tsf :=
  match tsf_channel_set_bank_preset st channel bank number with
  | none => Except.error "Error in set_channel_bank_preset"
  | some st1 => Except.ok st1

/-- `SoundFont::set_channel_pan` from `src/main.cpp`: throws on a zero
status. -/
def SoundFont.set_channel_pan (st : Tsf) (channel : Int) (pan : ℚ) :
    Except String Tsf :=
  match tsf_channel_set_pan st channel pan with
  | none => Except.error "Error in set_channel_pan"
  | some st1 => Except.ok st1

/-- `SoundFont::set_channel_volume` from `src/main.cpp`: throws on a zero
status. -/
def SoundFont.set_channel_volume (st : Tsf) (channel : Int) (volume : ℚ) :
    Except String Tsf :=
  match tsf_channel_set_volume st channel volume with
  | none => Except.error "Error in set_channel_volume"
  | some st1 => Except.ok st1

/-- `SoundFont::set_channel_pitch_wheel` from `src/main.cpp`: throws on a
zero status. -/
def SoundFont.set_channel_pitch_wheel (st : Tsf) (channel pitchWheel : Int) :
    Except String Tsf :=
  match tsf_channel_set_pitchwheel st channel pitchWheel with
  | none => Except.error "Error in set_channel_pitch_wheel"
  | some st1 => Except.ok st1

/-- `SoundFont::set_channel_pitch_range` from `src/main.cpp`: throws on a
zero status. -/
def SoundFont.set_channel_pitch_range (st : Tsf) (channel : Int) (p : ℚ) :
    Except String Tsf :=
  match tsf_channel_set_pitchrange st channel p with
  | none => Except.error "Error in set_channel_pitch_range"
  | some st1 => Except.ok st1

/-- `SoundFont::set_channel_tuning` from `src/main.cpp`: throws on a zero
status. -/
def SoundFont.set_channel_tuning (st : Tsf) (channel : Int) (tuning : ℚ) :
    Except String Tsf :=
  match tsf_channel_set_tuning st channel tuning with
  | none => Except.error "Error in set_channel_tuning"
  | some st1 => Except.ok st1

/-- `SoundFont::channel_note_on` from `src/main.cpp`: throws on a zero
status. -/
def SoundFont.channel_note_on (st : Tsf) (channel : Int) (key : Nat) (vel : ℚ) :
    Except String Tsf :=
  match tsf_channel_note_on st channel key vel with
  | none => Except.error "Error in channel_note_on"
  | some st1 => Except.ok st1

/-- `SoundFont::channel_note_off(int, int)` from `src/main.cpp`: the status
of `tsf_channel_note_off` is discarded, so the call returns normally for
every argument, leaving the state as it was on failure. -/
def SoundFont.channel_note_off_key (st : Tsf) (channel : Int) (key : Nat) :
    Except String Tsf :=
  Except.ok ((tsf_channel_note_off st channel key).getD st)

/-- `SoundFont::channel_note_off(int)` from `src/main.cpp`: the status of
`tsf_channel_note_off_all` is discarded, so the call returns normally for
every argument. -/
def SoundFont.channel_note_off_all (st : Tsf) (channel : Int) : Except String Tsf :=
  Except.ok ((tsf_channel_note_off_all st channel).getD st)

/-- `SoundFont::channel_sounds_off` from `src/main.cpp`: the status of
`tsf_channel_sounds_off_all` is discarded, so the call returns normally for
every argument. -/
def SoundFont.channel_sounds_off (st : Tsf) (channel : Int) : Except String Tsf :=
  Except.ok ((tsf_channel_sounds_off_all st channel).getD st)

/-- Modelled from the spec: the Bank Loader is an external collaborator whose
binary parsing is out of scope; a load source is abstracted by the bank it
parses to, or `none` for a missing file or malformed container. -/
structure LoadSource where
  parsed : Option Tsf
deriving DecidableEq

/-- Modelled from the spec: `tsf_load_memory` — the loader's verdict on an
in-memory byte sequence: a fully built bank or nothing usable. -/
def tsf_load_memory (src : LoadSource) : Option Tsf :=
  src.parsed

/-- Modelled from the spec: `tsf_load_filename` — the loader's verdict on a
file path: a fully built bank or nothing usable. -/
def tsf_load_filename (src : LoadSource) : Option Tsf :=
  src.parsed

/-- Modelled from the spec: `tsf_copy` — duplicates the mutable session
state, sharing the immutable preset data; fails under resource exhaustion,
abstracted by the `canAlloc` flag, and never touches the original. -/
def tsf_copy (canAlloc : Bool) (st : Tsf) : Option Tsf :=
  if canAlloc then some st else none

/-- `SoundFont::SoundFont(py::bytes)` from `src/main.cpp`: throws
"Could not load SoundFont from bytes" when the loader fails. -/
def SoundFont.load_from_bytes (src : LoadSource) : Except String Tsf :=
  match tsf_load_memory src with
  | some o => Except.ok o
  | none => Except.error "Could not load SoundFont from bytes"

/-- `SoundFont::SoundFont(const std::string&)` from `src/main.cpp`: throws
"Could not load SoundFont file: " plus the filename when the loader fails. -/
def SoundFont.load_from_filename (filename : String) (src : LoadSource) :
    Except String Tsf :=
  match tsf_load_filename src with
  | some o => Except.ok o
  | none => Except.error ("Could not load SoundFont file: " ++ filename)

/-- `SoundFont::SoundFont(const SoundFont&)` from `src/main.cpp`: throws
"Could not clone existing SoundFont object" when `tsf_copy` fails; the
original object is only read. -/
def SoundFont.clone (canAlloc : Bool) (other : Tsf) : Except String Tsf :=
  match tsf_copy canAlloc other with
  | some o => Except.ok o
  | none => Except.error "Could not clone existing SoundFont object"

/-- An engine state with an empty bank and no channels, for the closed
failure scenarios. -/
def emptyState : Tsf :=
  { presets := []
    outputmode := TSFOutputMode.StereoInterleaved
    samplerate := 44100
    globalGain := 1
    voices := []
    maxVoices := 64
    channels := []
    voiceCounter := 0 }

/-- A small concrete engine state used by closed witnesses: one preset with a
single sustaining region covering the full key range, one default channel. -/
def demoState : Tsf :=
  { presets := [{ presetName := "Demo", bank := 0, preset := 0,
                  regions := [{ lokey := 0, hikey := 127, lovel := 0, hivel := 1,
                                sustaining := true }] }]
    outputmode := TSFOutputMode.Mono
    samplerate := 44100
    globalGain := 1
    voices := []
    maxVoices := 64
    channels := [{ presetIndex := some 0, bank := 0, pan := 1 / 2, volume := 1,
                   pitchWheel := 8192, pitchRange := 2, tuning := 0 }]
    voiceCounter := 0 }

/-- C1: every buffer whose shape does not conform — 1-D with non-byte format,
1-D byte with length not a multiple of 4 × channels, dimensionality other
than 1 or 2, 2-D with non-float32 format, or 2-D float32 with second
dimension different from the configured channel count — makes `render`
report a format error; the error result carries no new state and no frames,
so nothing is written and voice and channel state are unchanged. -/
theorem claim_C1_render_rejects_nonconforming (st : Tsf) (info : BufferInfo)
    (h : (info.ndim = 1 ∧ info.format ≠ BufFormat.uchar) ∨
         (info.ndim = 1 ∧ info.format = BufFormat.uchar ∧
            info.shape0 % (4 * outputChannels st) ≠ 0) ∨
         (info.ndim ≠ 1 ∧ info.ndim ≠ 2) ∨
         (info.ndim = 2 ∧ info.format ≠ BufFormat.float32) ∨
         (info.ndim = 2 ∧ info.format = BufFormat.float32 ∧
            info.shape1 ≠ outputChannels st)) :
    ∃ e, SoundFont.render st info = Except.error e := by
  rcases h with ⟨h1, hf⟩ | ⟨h1, hf, hm⟩ | ⟨h1, h2⟩ | ⟨h2, hf⟩ | ⟨h2, hf, hs⟩
  · simp [SoundFont.render, h1, hf]
  · simp [SoundFont.render, h1, hf, hm]
  · by_cases hfmt : info.format = BufFormat.float32
    · simp [SoundFont.render, h1, h2, hfmt]
    · simp [SoundFont.render, h1, hfmt]
  · have h1 : info.ndim ≠ 1 := by omega
    simp [SoundFont.render, h1, hf]
  · have h1 : info.ndim ≠ 1 := by omega
    simp [SoundFont.render, h1, hf, h2, hs]

/-- Witness for C1 at a concrete nonconforming buffer: a 3-D float32 buffer. -/
theorem claim_C1_witness :
    ∃ e, SoundFont.render demoState
      { ndim := 3, format := BufFormat.float32, shape0 := 8, shape1 := 1 } =
        Except.error e :=
  claim_C1_render_rejects_nonconforming demoState
    { ndim := 3, format := BufFormat.float32, shape0 := 8, shape1 := 1 }
    (Or.inr (Or.inr (Or.inl (by decide))))

/-- An inactive voice slot is untouched by a frame step. -/
theorem stepVoice_of_inactive (v : Voice) (h : isActive v = false) :
    stepVoice v = v := by
  simp [stepVoice, h]

/-- A frame step never revives a free slot: a voice active after a step was
active before it. -/
theorem isActive_of_stepVoice (v : Voice) (h : isActive (stepVoice v) = true) :
    isActive v = true := by
  by_cases hv : isActive v = true
  · exact hv
  · rw [stepVoice_of_inactive v (by simpa using hv)] at h
    exact h

/-- A voice active after `n` frame steps was active before them. -/
theorem isActive_of_stepVoiceN (n : Nat) (v : Voice)
    (h : isActive (stepVoiceN n v) = true) : isActive v = true := by
  induction n generalizing v with
  | zero => exact h
  | succ n ih => exact isActive_of_stepVoice v (ih (stepVoice v) h)

/-- One frame step advances an active voice's playback cursor by one frame. -/
theorem stepVoice_framesPlayed (v : Voice) (h : isActive v = true) :
    (stepVoice v).framesPlayed = v.framesPlayed + 1 := by
  by_cases hl : (if v.inRelease then v.level - 1 else v.level) = 0 <;>
    simp [stepVoice, h, hl]

/-- A voice still active after `n` frame steps has advanced by exactly `n`
frames. -/
theorem stepVoiceN_framesPlayed (n : Nat) (v : Voice)
    (h : isActive (stepVoiceN n v) = true) :
    (stepVoiceN n v).framesPlayed = v.framesPlayed + n := by
  induction n generalizing v with
  | zero => rfl
  | succ n ih =>
    have hstep : isActive (stepVoice v) = true :=
      isActive_of_stepVoiceN n (stepVoice v) h
    have hv : isActive v = true := isActive_of_stepVoice v hstep
    have := ih (stepVoice v) h
    rw [show stepVoiceN (n + 1) v = stepVoiceN n (stepVoice v) from rfl, this,
      stepVoice_framesPlayed v hv]
    omega

/-- Rendering `n` frames applies `n` frame steps to every voice slot of the
pool, slot by slot. -/
theorem tsf_render_float_voices (n : Nat) (st : Tsf) :
    (tsf_render_float st n).1.voices = st.voices.map (stepVoiceN n) := by
  induction n generalizing st with
  | zero => simp [tsf_render_float, stepVoiceN]
  | succ n ih =>
    simp only [tsf_render_float, ih, renderFrame, List.map_map]
    rfl

/-- Rendering `n` frames writes exactly `n` frames of output. -/
theorem tsf_render_float_length (n : Nat) (st : Tsf) :
    (tsf_render_float st n).2.length = n := by
  induction n generalizing st with
  | zero => rfl
  | succ n ih => simp [tsf_render_float, ih]

/-- Rendering is compositional: `k + m` frames in one call equal `k` frames
followed by `m` frames from the resulting state, with the outputs
concatenated. -/
theorem tsf_render_float_split (k : Nat) (st : Tsf) (m : Nat) :
    tsf_render_float st (k + m) =
      ((tsf_render_float (tsf_render_float st k).1 m).1,
       (tsf_render_float st k).2 ++ (tsf_render_float (tsf_render_float st k).1 m).2) := by
  induction k generalizing st with
  | zero => simp [tsf_render_float]
  | succ k ih =>
    rw [Nat.succ_add]
    simp only [tsf_render_float]
    rw [ih (renderFrame st).1]
    simp

/-- Every voice still active after rendering `s` frames from `st` came from
an active voice of `st` and has advanced by exactly `s` frames. -/
def advancesVoicesBy (st : Tsf) (s : Nat) : Prop :=
  ∀ v ∈ (tsf_render_float st s).1.voices, isActive v = true →
    ∃ v0 ∈ st.voices, isActive v0 = true ∧ v.framesPlayed = v0.framesPlayed + s

/-- Auxiliary: `advancesVoicesBy` holds of every state and frame count. -/
theorem advancesVoicesBy_holds (st : Tsf) (s : Nat) : advancesVoicesBy st s := by
  intro v hv hact
  rw [tsf_render_float_voices] at hv
  rcases List.mem_map.mp hv with ⟨v0, hv0, rfl⟩
  exact ⟨v0, hv0, isActive_of_stepVoiceN s v0 hact,
    stepVoiceN_framesPlayed s v0 hact⟩

/-- C2: for every conforming buffer, `render` succeeds, hands
`tsf_render_float` the sample count the claim states — `shape0 / (4 ×
channels)` for a 1-D byte buffer, and the first dimension for a 2-D float32
buffer — writes exactly that many frames, and advances every voice that
remains active by exactly that many frames. -/
theorem claim_C2_render_conforming (st : Tsf) (info : BufferInfo) :
    (info.ndim = 1 → info.format = BufFormat.uchar →
      info.shape0 % (4 * outputChannels st) = 0 →
      SoundFont.render st info =
        Except.ok (tsf_render_float st (info.shape0 / (4 * outputChannels st))) ∧
      (tsf_render_float st (info.shape0 / (4 * outputChannels st))).2.length =
        info.shape0 / (4 * outputChannels st) ∧
      advancesVoicesBy st (info.shape0 / (4 * outputChannels st))) ∧
    (info.ndim = 2 → info.format = BufFormat.float32 →
      info.shape1 = outputChannels st →
      SoundFont.render st info = Except.ok (tsf_render_float st info.shape0) ∧
      (tsf_render_float st info.shape0).2.length = info.shape0 ∧
      advancesVoicesBy st info.shape0) := by
  constructor
  · intro h1 hf hm
    refine ⟨?_, tsf_render_float_length _ _, advancesVoicesBy_holds _ _⟩
    simp [SoundFont.render, h1, hf, hm]
  · intro h2 hf hs
    have h1 : info.ndim ≠ 1 := by omega
    refine ⟨?_, tsf_render_float_length _ _, advancesVoicesBy_holds _ _⟩
    simp [SoundFont.render, h1, h2, hf, hs]

/-- Witness for C2: a concrete 1-D byte buffer of 8 bytes on the mono demo
state renders 8 / 4 = 2 frames, and a concrete (3, 1) float32 buffer renders
3 frames. -/
theorem claim_C2_witness :
    (SoundFont.render demoState
        { ndim := 1, format := BufFormat.uchar, shape0 := 8, shape1 := 0 } =
      Except.ok (tsf_render_float demoState (8 / (4 * outputChannels demoState))) ∧
      (tsf_render_float demoState (8 / (4 * outputChannels demoState))).2.length =
        8 / (4 * outputChannels demoState) ∧
      advancesVoicesBy demoState (8 / (4 * outputChannels demoState))) ∧
    (SoundFont.render demoState
        { ndim := 2, format := BufFormat.float32, shape0 := 3, shape1 := 1 } =
      Except.ok (tsf_render_float demoState 3) ∧
      (tsf_render_float demoState 3).2.length = 3 ∧
      advancesVoicesBy demoState 3) :=
  ⟨(claim_C2_render_conforming demoState
      { ndim := 1, format := BufFormat.uchar, shape0 := 8, shape1 := 0 }).1
      rfl rfl (by decide),
   (claim_C2_render_conforming demoState
      { ndim := 2, format := BufFormat.float32, shape0 := 3, shape1 := 1 }).2
      rfl rfl (by decide)⟩

/-- C3: rendering `N` frames in two consecutive calls of size `k` and
`N − k`, with the second call writing the frames that follow the first
call's, yields the same final engine state and the same `N` frames as a
single call of size `N`, provided no events occur between the calls. -/
theorem claim_C3_render_split (st : Tsf) (N k : Nat) (h0 : 0 < k) (hN : k < N) :
    tsf_render_float st N =
      ((tsf_render_float (tsf_render_float st k).1 (N - k)).1,
       (tsf_render_float st k).2 ++
         (tsf_render_float (tsf_render_float st k).1 (N - k)).2) := by
  have hk : k + (N - k) = N := by omega
  calc tsf_render_float st N = tsf_render_float st (k + (N - k)) := by rw [hk]
    _ = _ := tsf_render_float_split k st (N - k)

/-- Witness for C3: splitting a 3-frame render of the demo state into 1 + 2
frames gives the same state and output. -/
theorem claim_C3_witness :
    tsf_render_float demoState 3 =
      ((tsf_render_float (tsf_render_float demoState 1).1 (3 - 1)).1,
       (tsf_render_float demoState 1).2 ++
         (tsf_render_float (tsf_render_float demoState 1).1 (3 - 1)).2) :=
  claim_C3_render_split demoState 3 1 (by decide) (by decide)

/-- A successful preset lookup returns a position inside the list holding a
preset with the looked-up (bank, program) pair. -/
theorem presetLookup_some (bank number : Int) (l : List Preset) (i : Nat)
    (h : presetLookup bank number l = some i) :
    ∃ p, l.get? i = some p ∧ p.bank = bank ∧ p.preset = number := by
  induction l generalizing i with
  | nil => simp [presetLookup] at h
  | cons p ps ih =>
    by_cases hp : p.bank = bank ∧ p.preset = number
    · simp [presetLookup, hp] at h
      exact ⟨p, by simp [← h], hp⟩
    · simp [presetLookup, hp] at h
      rcases h with ⟨j, hj, rfl⟩
      rcases ih j hj with ⟨q, hq, hqb, hqn⟩
      exact ⟨q, by simpa using hq, hqb, hqn⟩

/-- When no preset carries the looked-up (bank, program) pair, the lookup
fails with the -1 sentinel's `none`. -/
theorem presetLookup_none (bank number : Int) (l : List Preset)
    (h : ∀ p ∈ l, ¬(p.bank = bank ∧ p.preset = number)) :
    presetLookup bank number l = none := by
  induction l with
  | nil => rfl
  | cons p ps ih =>
    have hp := h p (by simp)
    simp [presetLookup, hp]
    exact ih (fun q hq => h q (by simp [hq]))

/-- C4: for every (bank, program) pair that resolves to a preset of the
loaded bank (index sentinel different from -1), looking the name up through
`get_preset_index` followed by the by-index `get_preset_name` gives the same
string as the by-(bank, program) `get_preset_name`. -/
theorem claim_C4_preset_name_agree (st : Tsf) (bank number : Int)
    (h : SoundFont.get_preset_index st bank number ≠ -1) :
    SoundFont.get_preset_name_by_index st (SoundFont.get_preset_index st bank number) =
      SoundFont.get_preset_name_by_bank st bank number := by
  rcases hl : presetLookup bank number st.presets with _ | i
  · exact absurd (by simp [SoundFont.get_preset_index, tsf_get_presetindex, hl]) h
  · rcases presetLookup_some bank number st.presets i hl with ⟨p, hp, _, _⟩
    have hidx : SoundFont.get_preset_index st bank number = (i : Int) := by
      simp [SoundFont.get_preset_index, tsf_get_presetindex, hl]
    rw [hidx]
    have h0 : ¬((i : Int) < 0) := by omega
    rw [List.get?_eq_getElem?] at hp
    simp [SoundFont.get_preset_name_by_index, SoundFont.get_preset_name_by_bank,
      tsf_get_presetname, tsf_bank_get_presetname, hl, hp, h0]

/-- Witness for C4 at the demo bank's (0, 0) preset. -/
theorem claim_C4_witness :
    SoundFont.get_preset_name_by_index demoState
        (SoundFont.get_preset_index demoState 0 0) =
      SoundFont.get_preset_name_by_bank demoState 0 0 :=
  claim_C4_preset_name_agree demoState 0 0 (by decide)

/-- C5: the by-index `get_preset_name` reports an error for every index
outside [0, presetCount), and the by-(bank, program) `get_preset_name`
reports an error for every pair matching no preset; neither produces a
string in those cases. -/
theorem claim_C5_preset_name_errors (st : Tsf) (index bank number : Int) :
    ((index < 0 ∨ (tsf_get_presetcount st : Int) ≤ index) →
      ∃ e, SoundFont.get_preset_name_by_index st index = Except.error e) ∧
    ((∀ p ∈ st.presets, ¬(p.bank = bank ∧ p.preset = number)) →
      ∃ e, SoundFont.get_preset_name_by_bank st bank number = Except.error e) := by
  constructor
  · intro h
    rcases h with h | h
    · simp [SoundFont.get_preset_name_by_index, tsf_get_presetname, h]
    · have hneg : ¬index < 0 ∨ index < 0 := by omega
      by_cases h0 : index < 0
      · simp [SoundFont.get_preset_name_by_index, tsf_get_presetname, h0]
      · have hlen : st.presets.length ≤ index.toNat := by
          simp [tsf_get_presetcount] at h; omega
        simp [SoundFont.get_preset_name_by_index, tsf_get_presetname, h0,
          List.getElem?_eq_none hlen]
  · intro h
    simp [SoundFont.get_preset_name_by_bank, tsf_bank_get_presetname,
      presetLookup_none bank number st.presets h]

/-- Witness for C5: index 5 is outside the demo bank's single-preset range,
and (9, 9) matches no demo preset. -/
theorem claim_C5_witness :
    (∃ e, SoundFont.get_preset_name_by_index demoState 5 = Except.error e) ∧
    (∃ e, SoundFont.get_preset_name_by_bank demoState 9 9 = Except.error e) :=
  ⟨(claim_C5_preset_name_errors demoState 5 9 9).1 (by decide),
   (claim_C5_preset_name_errors demoState 5 9 9).2 (by decide)⟩

/-- Unfolding of `countActive` over a cons cell. -/
theorem countActive_cons (v : Voice) (vs : List Voice) :
    countActive (v :: vs) = (if isActive v then 1 else 0) + countActive vs := by
  by_cases h : isActive v <;> simp [countActive, List.filter_cons, h, Nat.add_comm]

/-- `countActive` distributes over append. -/
theorem countActive_append (vs ws : List Voice) :
    countActive (vs ++ ws) = countActive vs + countActive ws := by
  simp [countActive, List.filter_append]

/-- A pool containing an active voice has a positive active count. -/
theorem countActive_pos (vs : List Voice) (v : Voice) (hv : v ∈ vs)
    (ha : isActive v = true) : 0 < countActive vs := by
  have : v ∈ vs.filter isActive := List.mem_filter.mpr ⟨hv, ha⟩
  exact List.length_pos.mpr (List.ne_nil_of_mem this)

/-- A pool with active count zero has only inactive voices. -/
theorem countActive_eq_zero (vs : List Voice) (h : countActive vs = 0) :
    ∀ v ∈ vs, isActive v = false := by
  intro v hv
  have := List.filter_eq_nil_iff.mp (List.length_eq_zero.mp h) v hv
  simpa using this

/-- The candidate `bestSteal` returns sits at the returned position and
satisfies the predicate. -/
theorem bestSteal_some (p : Voice → Bool) (vs : List Voice) (i : Nat) (w : Voice)
    (h : bestSteal p vs = some (i, w)) : vs.get? i = some w ∧ p w = true := by
  induction vs generalizing i w with
  | nil => simp [bestSteal] at h
  | cons v vs ih =>
    rcases hrec : bestSteal p vs with _ | ⟨j, u⟩
    · by_cases hp : p v = true
      · simp [bestSteal, hrec, hp] at h
        rcases h with ⟨rfl, rfl⟩
        exact ⟨rfl, hp⟩
      · simp [bestSteal, hrec, hp] at h
    · by_cases hcond : p v = true ∧ v.startOrder ≤ u.startOrder
      · simp [bestSteal, hrec, hcond] at h
        rcases h with ⟨rfl, rfl⟩
        exact ⟨rfl, hcond.1⟩
      · simp [bestSteal, hrec, hcond] at h
        rcases h with ⟨rfl, rfl⟩
        rcases ih j u hrec with ⟨hj, hw⟩
        exact ⟨by simpa using hj, hw⟩

/-- When `bestSteal` finds nothing, no voice satisfies the predicate. -/
theorem bestSteal_none (p : Voice → Bool) (vs : List Voice)
    (h : bestSteal p vs = none) : ∀ v ∈ vs, p v = false := by
  induction vs with
  | nil => simp
  | cons v vs ih =>
    rcases hrec : bestSteal p vs with _ | ⟨j, u⟩
    · by_cases hp : p v = true
      · simp [bestSteal, hrec, hp] at h
      · intro u hu
        rcases List.mem_cons.mp hu with rfl | hu
        · simpa using hp
        · exact ih hrec u hu
    · simp [bestSteal, hrec] at h
      split at h <;> simp at h

/-- `bestSteal` returns a candidate of minimal start order among those
satisfying the predicate. -/
theorem bestSteal_min (p : Voice → Bool) (vs : List Voice) (i : Nat) (w : Voice)
    (h : bestSteal p vs = some (i, w)) :
    ∀ u ∈ vs, p u = true → w.startOrder ≤ u.startOrder := by
  induction vs generalizing i w with
  | nil => simp [bestSteal] at h
  | cons v vs ih =>
    intro u hu hp
    rcases hrec : bestSteal p vs with _ | ⟨j, x⟩
    · by_cases hpv : p v = true
      · simp [bestSteal, hrec, hpv] at h
        rcases h with ⟨rfl, rfl⟩
        rcases List.mem_cons.mp hu with rfl | hu
        · exact Nat.le_refl _
        · exact absurd hp (by simp [bestSteal_none p vs hrec u hu])
      · simp [bestSteal, hrec, hpv] at h
    · by_cases hcond : p v = true ∧ v.startOrder ≤ x.startOrder
      · simp [bestSteal, hrec, hcond] at h
        rcases h with ⟨rfl, rfl⟩
        rcases List.mem_cons.mp hu with rfl | hu
        · exact Nat.le_refl _
        · exact Nat.le_trans hcond.2 (ih j x hrec u hu hp)
      · simp [bestSteal, hrec, hcond] at h
        rcases h with ⟨rfl, rfl⟩
        rcases List.mem_cons.mp hu with rfl | hu
        · rcases not_and_or.mp hcond with hnp | hno
          · exact absurd hp hnp
          · exact Nat.le_of_lt (Nat.lt_of_not_le hno)
        · exact ih j x hrec u hu hp

/-- A pool with an active voice yields a stealing candidate, and the
candidate is an active voice of the pool. -/
theorem chooseSteal_spec (vs : List Voice) (h : 0 < countActive vs) :
    ∃ i w, chooseSteal vs = some (i, w) ∧ vs.get? i = some w ∧ isActive w = true := by
  have hex : ∃ v ∈ vs, isActive v = true := by
    rcases hf : vs.filter isActive with _ | ⟨v, rest⟩
    · simp [countActive, hf] at h
    · have hv : v ∈ vs.filter isActive := by simp [hf]
      exact ⟨v, (List.mem_filter.mp hv).1, (List.mem_filter.mp hv).2⟩
  rcases hrel : bestSteal (fun v => isActive v && v.inRelease) vs with _ | ⟨i, w⟩
  · rcases hact : bestSteal isActive vs with _ | ⟨i, w⟩
    · rcases hex with ⟨v, hv, ha⟩
      exact absurd ha (by simp [bestSteal_none isActive vs hact v hv])
    · rcases bestSteal_some isActive vs i w hact with ⟨hg, hp⟩
      exact ⟨i, w, by simp [chooseSteal, hrel, hact], hg, hp⟩
  · rcases bestSteal_some _ vs i w hrel with ⟨hg, hp⟩
    refine ⟨i, w, by simp [chooseSteal, hrel], hg, ?_⟩
    have hp1 : isActive w = true ∧ w.inRelease = true := by simpa using hp
    exact hp1.1

/-- Switching the voice at one position off lowers the active count by one. -/
theorem countActive_set_off (vs : List Voice) (i : Nat) (w : Voice)
    (hg : vs.get? i = some w) (ha : isActive w = true) :
    countActive (vs.set i (voiceOff w)) = countActive vs - 1 := by
  induction vs generalizing i with
  | nil => simp at hg
  | cons v vs ih =>
    cases i with
    | zero =>
      have hv : v = w := by simpa using hg
      subst hv
      have hoff : isActive (voiceOff v) = false := by simp [isActive, voiceOff]
      simp [List.set, countActive_cons, hoff, ha]
    | succ i =>
      have hg1 : vs.get? i = some w := by simpa using hg
      have hpos : 0 < countActive vs :=
        countActive_pos vs w (List.get?_mem hg1) ha
      simp only [List.set, countActive_cons, ih i hg1]
      omega

/-- Stealing from a pool with an active voice stops exactly one voice. -/
theorem countActive_stealOne (vs : List Voice) (h : 0 < countActive vs) :
    countActive (stealOne vs) = countActive vs - 1 := by
  rcases chooseSteal_spec vs h with ⟨i, w, hc, hg, ha⟩
  simp [stealOne, hc, countActive_set_off vs i w hg ha]

/-- Stealing from an all-silent pool does nothing. -/
theorem stealOne_of_zero (vs : List Voice) (h : countActive vs = 0) :
    stealOne vs = vs := by
  have hall := countActive_eq_zero vs h
  rcases hrel : bestSteal (fun v => isActive v && v.inRelease) vs with _ | ⟨i, w⟩
  · rcases hact : bestSteal isActive vs with _ | ⟨i, w⟩
    · simp [stealOne, chooseSteal, hrel, hact]
    · rcases bestSteal_some isActive vs i w hact with ⟨hg, hp⟩
      exact absurd hp (by simp [hall w (List.get?_mem hg)])
  · rcases bestSteal_some _ vs i w hrel with ⟨hg, hp⟩
    have := hall w (List.get?_mem hg)
    simp [this] at hp

/-- Stealing `k` voices lowers the active count by `k` (stopping at zero). -/
theorem countActive_stealDown (k : Nat) (vs : List Voice) :
    countActive (stealDown k vs) = countActive vs - k := by
  induction k generalizing vs with
  | zero => rfl
  | succ k ih =>
    by_cases h : 0 < countActive vs
    · rw [show stealDown (k + 1) vs = stealDown k (stealOne vs) from rfl, ih,
        countActive_stealOne vs h]
      omega
    · have h0 : countActive vs = 0 := by omega
      rw [show stealDown (k + 1) vs = stealDown k (stealOne vs) from rfl,
        stealOne_of_zero vs h0, ih, h0]
      omega

/-- Allocation keeps the active count within the capacity bound. -/
theorem allocVoice_bound (maxV : Nat) (vs : List Voice) (v : Voice)
    (h : countActive vs ≤ maxV) :
    countActive (allocVoice maxV vs v) ≤ maxV := by
  by_cases h0 : maxV = 0
  · simp [allocVoice, h0]; omega
  · by_cases hlt : countActive vs < maxV
    · have : countActive [v] ≤ 1 := by
        by_cases ha : isActive v <;> simp [countActive, List.filter, ha]
      simp only [allocVoice, h0, hlt, if_false, if_true, countActive_append]
      omega
    · have hful : countActive vs = maxV := by omega
      have hpos : 0 < countActive vs := by omega
      have : countActive [v] ≤ 1 := by
        by_cases ha : isActive v <;> simp [countActive, List.filter, ha]
      simp only [allocVoice, h0, hlt, if_false, countActive_append,
        countActive_stealOne vs hpos]
      omega

/-- The region-by-region allocation fold keeps the active count within the
capacity bound. -/
theorem foldl_alloc_bound (maxV presetIdx : Nat) (key : Nat) (vel : ℚ)
    (channel : Int) (rs : List Region) (acc : List Voice × Nat)
    (h : countActive acc.1 ≤ maxV) :
    countActive (rs.foldl
      (fun (acc : List Voice × Nat) r =>
        (allocVoice maxV acc.1 (newVoice presetIdx r key vel channel acc.2),
         acc.2 + 1))
      acc).1 ≤ maxV := by
  induction rs generalizing acc with
  | nil => exact h
  | cons r rs ih =>
    exact ih _ (allocVoice_bound maxV acc.1 _ h)

/-- A note-on through `startVoices` keeps the active count within the
capacity bound. -/
theorem startVoices_bound (st : Tsf) (presetIdx key : Nat) (vel : ℚ)
    (channel : Int) (h : countActive st.voices ≤ st.maxVoices) :
    countActive (startVoices st presetIdx key vel channel).voices ≤ st.maxVoices := by
  rcases hp : st.presets.get? presetIdx with _ | p <;>
    rw [List.get?_eq_getElem?] at hp
  · simpa [startVoices, hp] using h
  · simpa [startVoices, hp] using
      foldl_alloc_bound st.maxVoices presetIdx key vel channel
        (p.regions.filter (fun r => regionMatches r key vel))
        (st.voices, st.voiceCounter) h

/-- A frame step never raises the active count. -/
theorem countActive_map_stepVoice (vs : List Voice) :
    countActive (vs.map stepVoice) ≤ countActive vs := by
  induction vs with
  | nil => exact Nat.le_refl _
  | cons v vs ih =>
    rw [List.map_cons, countActive_cons, countActive_cons]
    have hhead : (if isActive (stepVoice v) then 1 else 0) ≤
        (if isActive v then (1 : Nat) else 0) := by
      by_cases ha : isActive (stepVoice v) = true
      · simp [ha, isActive_of_stepVoice v ha]
      · simp [ha]
    omega

/-- `startVoices` never changes the capacity bound. -/
theorem startVoices_maxVoices (st : Tsf) (presetIdx key : Nat) (vel : ℚ)
    (channel : Int) :
    (startVoices st presetIdx key vel channel).maxVoices = st.maxVoices := by
  rcases hp : st.presets.get? presetIdx with _ | p <;>
    rw [List.get?_eq_getElem?] at hp <;> simp [startVoices, hp]

/-- Iterated frame steps never raise the active count. -/
theorem countActive_map_stepVoiceN (s : Nat) (vs : List Voice) :
    countActive (vs.map (stepVoiceN s)) ≤ countActive vs := by
  induction s generalizing vs with
  | zero => simp [stepVoiceN]
  | succ s ih =>
    have h1 : vs.map (stepVoiceN (s + 1)) = (vs.map stepVoice).map (stepVoiceN s) := by
      rw [List.map_map]
      rfl
    rw [h1]
    exact Nat.le_trans (ih (vs.map stepVoice)) (countActive_map_stepVoice vs)

/-- C6: `note_on` reports an error (the binding throws) and creates no voice
whenever the preset does not resolve — a flat index outside [0, presetCount)
or a (bank, program) pair matching no preset; in particular `note_on(99, …)`
fails on a bank with fewer than 100 presets. The error result carries no
state, so the voice pool is untouched. -/
theorem claim_C6_note_on_unresolved (st : Tsf) (index bank number : Int)
    (key : Nat) (vel : ℚ) :
    ((index < 0 ∨ (st.presets.length : Int) ≤ index) →
      SoundFont.note_on_by_index st index key vel = Except.error "Error in note_on") ∧
    ((∀ p ∈ st.presets, ¬(p.bank = bank ∧ p.preset = number)) →
      SoundFont.note_on_by_bank st bank number key vel = Except.error "Error in note_on") ∧
    (st.presets.length < 100 →
      SoundFont.note_on_by_index st 99 key vel = Except.error "Error in note_on") := by
  refine ⟨?_, ?_, ?_⟩
  · intro h
    simp [SoundFont.note_on_by_index, tsf_note_on, h]
  · intro h
    simp [SoundFont.note_on_by_bank, tsf_bank_note_on,
      presetLookup_none bank number st.presets h]
  · intro h
    have h99 : st.presets.length ≤ 99 := by omega
    simp [SoundFont.note_on_by_index, tsf_note_on, h99]

/-- Witness for C6 on the single-preset demo bank: a negative index, an
unmatched (bank, program) pair, and index 99. -/
theorem claim_C6_witness :
    SoundFont.note_on_by_index demoState (-3) 60 1 = Except.error "Error in note_on" ∧
    SoundFont.note_on_by_bank demoState 9 9 60 1 = Except.error "Error in note_on" ∧
    SoundFont.note_on_by_index demoState 99 60 1 = Except.error "Error in note_on" :=
  ⟨(claim_C6_note_on_unresolved demoState (-3) 9 9 60 1).1 (by decide),
   (claim_C6_note_on_unresolved demoState (-3) 9 9 60 1).2.1 (by decide),
   (claim_C6_note_on_unresolved demoState (-3) 9 9 60 1).2.2 (by decide)⟩

/-- C7 counterexample: channel 20 is outside the demo state's single-channel
range [0, 1), yet `channel_sounds_off`, `channel_note_off` (by key) and
`channel_note_off` (all) return normally with the state unchanged — the
binding discards the engine's status — so not every channel-prefixed
operation reports an InvalidChannel error. -/
theorem claim_C7_counterexample :
    SoundFont.channel_sounds_off demoState 20 = Except.ok demoState ∧
    SoundFont.channel_note_off_key demoState 20 60 = Except.ok demoState ∧
    SoundFont.channel_note_off_all demoState 20 = Except.ok demoState ∧
    ∀ e, SoundFont.channel_sounds_off demoState 20 ≠ Except.error e := by
  refine ⟨rfl, rfl, rfl, ?_⟩
  intro e h
  have h2 : SoundFont.channel_sounds_off demoState 20 = Except.ok demoState := rfl
  rw [h2] at h
  exact Except.noConfusion h

/-- C7 (amended): for every channel index outside [0, N), the ten fallible
channel-prefixed operations (the `set_channel_*` family and
`channel_note_on`) report an error and leave all state unchanged, while
`channel_note_off` (by key or all) and `channel_sounds_off` return normally
with the state unchanged, reporting nothing — their engine status is
discarded by the binding. -/
theorem claim_C7_invalid_channel (st : Tsf) (channel index bank number pitchWheel : Int)
    (key : Nat) (pan volume pitchRange tuning vel : ℚ) (drum : Bool)
    (h : channel < 0 ∨ (st.channels.length : Int) ≤ channel) :
    SoundFont.set_channel_preset_index st channel index =
      Except.error "Error in set_channel_preset_index" ∧
    SoundFont.set_channel_preset_number st channel number drum =
      Except.error "Error in set_channel_preset_number" ∧
    SoundFont.set_channel_bank st channel bank =
      Except.error "Error in set_channel_bank" ∧
    SoundFont.set_channel_bank_preset st channel bank number =
      Except.error "Error in set_channel_bank_preset" ∧
    SoundFont.set_channel_pan st channel pan =
      Except.error "Error in set_channel_pan" ∧
    SoundFont.set_channel_volume st channel volume =
      Except.error "Error in set_channel_volume" ∧
    SoundFont.set_channel_pitch_wheel st channel pitchWheel =
      Except.error "Error in set_channel_pitch_wheel" ∧
    SoundFont.set_channel_pitch_range st channel pitchRange =
      Except.error "Error in set_channel_pitch_range" ∧
    SoundFont.set_channel_tuning st channel tuning =
      Except.error "Error in set_channel_tuning" ∧
    SoundFont.channel_note_on st channel key vel =
      Except.error "Error in channel_note_on" ∧
    SoundFont.channel_note_off_key st channel key = Except.ok st ∧
    SoundFont.channel_note_off_all st channel = Except.ok st ∧
    SoundFont.channel_sounds_off st channel = Except.ok st := by
  have hv : validChannel st channel = false := by
    simp only [validChannel, decide_eq_false_iff_not]
    omega
  refine ⟨?_, ?_, ?_, ?_, ?_, ?_, ?_, ?_, ?_, ?_, ?_, ?_, ?_⟩
  · simp [SoundFont.set_channel_preset_index, tsf_channel_set_presetindex, hv]
  · simp [SoundFont.set_channel_preset_number, tsf_channel_set_presetnumber, hv]
  · simp [SoundFont.set_channel_bank, tsf_channel_set_bank, hv]
  · simp [SoundFont.set_channel_bank_preset, tsf_channel_set_bank_preset, hv]
  · simp [SoundFont.set_channel_pan, tsf_channel_set_pan, hv]
  · simp [SoundFont.set_channel_volume, tsf_channel_set_volume, hv]
  · simp [SoundFont.set_channel_pitch_wheel, tsf_channel_set_pitchwheel, hv]
  · simp [SoundFont.set_channel_pitch_range, tsf_channel_set_pitchrange, hv]
  · simp [SoundFont.set_channel_tuning, tsf_channel_set_tuning, hv]
  · simp [SoundFont.channel_note_on, tsf_channel_note_on, hv]
  · simp [SoundFont.channel_note_off_key, tsf_channel_note_off, hv]
  · simp [SoundFont.channel_note_off_all, tsf_channel_note_off_all, hv]
  · simp [SoundFont.channel_sounds_off, tsf_channel_sounds_off_all, hv]

/-- Witness for the amended C7 at channel 20 of the single-channel demo
state. -/
theorem claim_C7_witness :
    SoundFont.set_channel_preset_index demoState 20 0 =
      Except.error "Error in set_channel_preset_index" ∧
    SoundFont.set_channel_preset_number demoState 20 0 false =
      Except.error "Error in set_channel_preset_number" ∧
    SoundFont.set_channel_bank demoState 20 0 =
      Except.error "Error in set_channel_bank" ∧
    SoundFont.set_channel_bank_preset demoState 20 0 0 =
      Except.error "Error in set_channel_bank_preset" ∧
    SoundFont.set_channel_pan demoState 20 0 =
      Except.error "Error in set_channel_pan" ∧
    SoundFont.set_channel_volume demoState 20 1 =
      Except.error "Error in set_channel_volume" ∧
    SoundFont.set_channel_pitch_wheel demoState 20 8192 =
      Except.error "Error in set_channel_pitch_wheel" ∧
    SoundFont.set_channel_pitch_range demoState 20 2 =
      Except.error "Error in set_channel_pitch_range" ∧
    SoundFont.set_channel_tuning demoState 20 0 =
      Except.error "Error in set_channel_tuning" ∧
    SoundFont.channel_note_on demoState 20 60 1 =
      Except.error "Error in channel_note_on" ∧
    SoundFont.channel_note_off_key demoState 20 60 = Except.ok demoState ∧
    SoundFont.channel_note_off_all demoState 20 = Except.ok demoState ∧
    SoundFont.channel_sounds_off demoState 20 = Except.ok demoState :=
  claim_C7_invalid_channel demoState 20 0 0 0 8192 60 0 1 2 0 1 false (by decide)

/-- A pool of two active voices, the older one already in release phase,
inside a two-voice session: the concrete stealing scenario. -/
def stealDemo : Tsf :=
  { demoState with
      maxVoices := 2
      voices :=
        [{ playingPreset := 0, playingKey := 60, playingChannel := -1,
           inRelease := true, sustaining := true, level := 5, framesPlayed := 0,
           startOrder := 0, velocity := 1 },
         { playingPreset := 0, playingKey := 64, playingChannel := -1,
           inRelease := false, sustaining := true, level := 7, framesPlayed := 0,
           startOrder := 1, velocity := 1 }] }

/-- C8: after `set_max_voices(n)` at most `n` voices are active — shrinking
steals voices instead of erroring; the stealing policy picks a release-phase
voice whenever one is active, and otherwise the oldest active voice by start
order; a note-on keeps the active count within the capacity bound (stealing
on a full pool) and rendering never raises it, so the bound holds at every
instant; and `set_max_voices(1)` followed by two overlapping note-ons on the
demo bank leaves exactly one active voice. -/
theorem claim_C8_max_voices (st : Tsf) (n index : Int) (key : Nat) (vel : ℚ)
    (s : Nat) :
    countActive (tsf_set_max_voices st n).voices ≤ n.toNat ∧
    ((∃ v ∈ st.voices, isActive v = true ∧ v.inRelease = true) →
      ∃ i w, chooseSteal st.voices = some (i, w) ∧ isActive w = true ∧
        w.inRelease = true) ∧
    ((∀ v ∈ st.voices, isActive v = true → v.inRelease = false) →
      ∀ i w, chooseSteal st.voices = some (i, w) →
        ∀ u ∈ st.voices, isActive u = true → w.startOrder ≤ u.startOrder) ∧
    (countActive st.voices ≤ st.maxVoices →
      ∀ st1, tsf_note_on st index key vel = some st1 →
        countActive st1.voices ≤ st1.maxVoices) ∧
    countActive (tsf_render_float st s).1.voices ≤ countActive st.voices ∧
    Except.map (fun s2 => countActive s2.voices)
      ((SoundFont.note_on_by_index (tsf_set_max_voices demoState 1) 0 60 1).bind
        (fun s1 => SoundFont.note_on_by_index s1 0 64 1)) = Except.ok 1 := by
  refine ⟨?_, ?_, ?_, ?_, ?_, ?_⟩
  · simp only [tsf_set_max_voices]
    rw [countActive_stealDown]
    omega
  · rintro ⟨v, hv, ha, hr⟩
    rcases hrel : bestSteal (fun v => isActive v && v.inRelease) st.voices with _ | ⟨i, w⟩
    · exact absurd (bestSteal_none _ _ hrel v hv) (by simp [ha, hr])
    · rcases bestSteal_some _ _ i w hrel with ⟨hg, hp⟩
      have hp1 : isActive w = true ∧ w.inRelease = true := by simpa using hp
      exact ⟨i, w, by simp [chooseSteal, hrel], hp1.1, hp1.2⟩
  · intro hnone i w hc u hu hau
    rcases hrel : bestSteal (fun v => isActive v && v.inRelease) st.voices with _ | ⟨j, x⟩
    · have hc1 : bestSteal isActive st.voices = some (i, w) := by
        simpa [chooseSteal, hrel] using hc
      exact bestSteal_min isActive st.voices i w hc1 u hu hau
    · rcases bestSteal_some _ _ j x hrel with ⟨hg, hp⟩
      have hp1 : isActive x = true ∧ x.inRelease = true := by simpa using hp
      exact absurd (hnone x (List.get?_mem hg) hp1.1) (by simp [hp1.2])
  · intro hb st1 hon
    by_cases hcond : index < 0 ∨ (st.presets.length : Int) ≤ index
    · simp [tsf_note_on, hcond] at hon
    · simp [tsf_note_on, hcond] at hon
      subst hon
      rw [startVoices_maxVoices]
      exact startVoices_bound st index.toNat key vel (-1) hb
  · rw [tsf_render_float_voices]
    exact countActive_map_stepVoiceN s st.voices
  · rfl

/-- Witness for C8: the bound after shrinking to one voice, the
release-first choice on the two-voice pool, the oldest-first fallback on the
empty pool, note-on preservation, render monotonicity, and the two
overlapping note-ons leaving one active voice. -/
theorem claim_C8_witness :
    countActive (tsf_set_max_voices stealDemo 1).voices ≤ (1 : Int).toNat ∧
    (∃ i w, chooseSteal stealDemo.voices = some (i, w) ∧ isActive w = true ∧
      w.inRelease = true) ∧
    (∀ i w, chooseSteal demoState.voices = some (i, w) →
      ∀ u ∈ demoState.voices, isActive u = true → w.startOrder ≤ u.startOrder) ∧
    (∀ st1, tsf_note_on stealDemo 0 60 1 = some st1 →
      countActive st1.voices ≤ st1.maxVoices) ∧
    countActive (tsf_render_float stealDemo 3).1.voices ≤
      countActive stealDemo.voices ∧
    Except.map (fun s2 => countActive s2.voices)
      ((SoundFont.note_on_by_index (tsf_set_max_voices demoState 1) 0 60 1).bind
        (fun s1 => SoundFont.note_on_by_index s1 0 64 1)) = Except.ok 1 :=
  ⟨(claim_C8_max_voices stealDemo 1 0 60 1 3).1,
   (claim_C8_max_voices stealDemo 1 0 60 1 3).2.1 (by decide),
   (claim_C8_max_voices demoState 1 0 60 1 3).2.2.1 (by decide),
   (claim_C8_max_voices stealDemo 1 0 60 1 3).2.2.2.1 (by decide),
   (claim_C8_max_voices stealDemo 1 0 60 1 3).2.2.2.2.1,
   (claim_C8_max_voices stealDemo 1 0 60 1 3).2.2.2.2.2⟩

/-- C9: loading from bytes or from a file path either fully succeeds with the
bank the loader built or reports a load error with its human-readable
message, never producing a partial bank (the error result carries no state);
cloning either fully succeeds — sharing the immutable preset data — or
reports an error, and a failed clone reads but never changes the original,
which the error result leaves untouched. -/
theorem claim_C9_load_clone (src : LoadSource) (filename : String)
    (canAlloc : Bool) (other : Tsf) :
    ((∃ t, SoundFont.load_from_bytes src = Except.ok t ∧
        tsf_load_memory src = some t) ∨
      SoundFont.load_from_bytes src =
        Except.error "Could not load SoundFont from bytes") ∧
    ((∃ t, SoundFont.load_from_filename filename src = Except.ok t) ∨
      SoundFont.load_from_filename filename src =
        Except.error ("Could not load SoundFont file: " ++ filename)) ∧
    ((∃ t, SoundFont.clone canAlloc other = Except.ok t ∧
        t.presets = other.presets) ∨
      SoundFont.clone canAlloc other =
        Except.error "Could not clone existing SoundFont object") ∧
    (canAlloc = false →
      SoundFont.clone canAlloc other =
        Except.error "Could not clone existing SoundFont object") := by
  refine ⟨?_, ?_, ?_, ?_⟩
  · rcases hs : src.parsed with _ | t
    · right
      simp [SoundFont.load_from_bytes, tsf_load_memory, hs]
    · left
      exact ⟨t, by simp [SoundFont.load_from_bytes, tsf_load_memory, hs],
        by simp [tsf_load_memory, hs]⟩
  · rcases hs : src.parsed with _ | t
    · right
      simp [SoundFont.load_from_filename, tsf_load_filename, hs]
    · left
      exact ⟨t, by simp [SoundFont.load_from_filename, tsf_load_filename, hs]⟩
  · cases canAlloc
    · right
      simp [SoundFont.clone, tsf_copy]
    · left
      exact ⟨other, by simp [SoundFont.clone, tsf_copy], rfl⟩
  · intro h
    subst h
    simp [SoundFont.clone, tsf_copy]

/-- Witness for C9: a failing source and a failing clone on concrete data,
and a succeeding load and clone of the demo bank. -/
theorem claim_C9_witness :
    ((∃ t, SoundFont.load_from_bytes { parsed := some demoState } = Except.ok t ∧
        tsf_load_memory { parsed := some demoState } = some t) ∨
      SoundFont.load_from_bytes { parsed := some demoState } =
        Except.error "Could not load SoundFont from bytes") ∧
    ((∃ t, SoundFont.load_from_filename "missing.sf2" { parsed := none } =
        Except.ok t) ∨
      SoundFont.load_from_filename "missing.sf2" { parsed := none } =
        Except.error ("Could not load SoundFont file: " ++ "missing.sf2")) ∧
    ((∃ t, SoundFont.clone false demoState = Except.ok t ∧
        t.presets = demoState.presets) ∨
      SoundFont.clone false demoState =
        Except.error "Could not clone existing SoundFont object") ∧
    SoundFont.clone false demoState =
      Except.error "Could not clone existing SoundFont object" :=
  ⟨(claim_C9_load_clone { parsed := some demoState } "missing.sf2" false demoState).1,
   (claim_C9_load_clone { parsed := none } "missing.sf2" false demoState).2.1,
   (claim_C9_load_clone { parsed := some demoState } "missing.sf2" false demoState).2.2.1,
   (claim_C9_load_clone { parsed := some demoState } "missing.sf2" false
      demoState).2.2.2 rfl⟩

/-- C10: every `note_off` variant, `channel_note_off` (by key or all) and
`channel_sounds_off` returns normally for all arguments whatsoever — the
binding discards any engine status, so unresolved presets, unmatched keys
and invalid channels report nothing — whereas `note_on` and
`channel_note_on` do report errors, shown here on the empty bank. -/
theorem claim_C10_note_off_never_errors (st : Tsf) (index bank number channel : Int)
    (key : Nat) :
    (∃ s, SoundFont.note_off_all st = Except.ok s) ∧
    (∃ s, SoundFont.note_off_by_index st index key = Except.ok s) ∧
    (∃ s, SoundFont.note_off_by_bank st bank number key = Except.ok s) ∧
    (∃ s, SoundFont.channel_note_off_key st channel key = Except.ok s) ∧
    (∃ s, SoundFont.channel_note_off_all st channel = Except.ok s) ∧
    (∃ s, SoundFont.channel_sounds_off st channel = Except.ok s) ∧
    SoundFont.note_on_by_index emptyState 0 60 1 = Except.error "Error in note_on" ∧
    SoundFont.channel_note_on emptyState 0 60 1 =
      Except.error "Error in channel_note_on" :=
  ⟨⟨_, rfl⟩, ⟨_, rfl⟩, ⟨_, rfl⟩, ⟨_, rfl⟩, ⟨_, rfl⟩, ⟨_, rfl⟩, rfl, rfl⟩

end TinySoundFont
